import Mathlib

/-!
Verification development for the browser-use-rs repository.

The definitions below shallowly embed the snapshot renderer
(src/tools/snapshot.rs), the clickable-elements formatter
(src/tools/get_clickable_elements.rs), the tool registry, context and
result types (src/tools/mod.rs) and the click tool (src/tools/click.rs).

Rust strings are modelled by Lean strings; Rust measures string length in
UTF-8 bytes and slices at byte offsets, so byte length and byte slicing
are modelled explicitly via the UTF-8 width of each character.  A byte
slice at an offset that is out of range or does not fall on a character
boundary is a Rust panic; such an operation is modelled as none, and the
functions that use it return Option so that a panic of the original code
is visible as a none result.

The dom and error modules of the repository are not part of the given
source tree; the structures they provide (ElementNode, DomTree, the
selector map operations and the error kind enumeration) are modelled from
the specification, as marked on each such definition.
-/

/-- Number of bytes of the UTF-8 encoding of a character, by codepoint
range: 1 byte up to 0x7F, 2 up to 0x7FF, 3 up to 0xFFFF, else 4. -/
def charUtf8Size (c : Char) : Nat :=
  if c.toNat ≤ 0x7F then 1
  else if c.toNat ≤ 0x7FF then 2
  else if c.toNat ≤ 0xFFFF then 3
  else 4

/-- UTF-8 byte length of a character list. -/
def utf8LenList : List Char → Nat
  | [] => 0
  | c :: cs => charUtf8Size c + utf8LenList cs

/-- UTF-8 byte length of a string; models the Rust str len method. -/
def utf8Len (s : String) : Nat := utf8LenList s.data

/-- Take the first n bytes of a character list.  Returns the consumed
characters when the byte offset n falls exactly on a character boundary
within the list, and none otherwise.  A none result models the panic of a
Rust byte-slice at a non-boundary or out-of-range offset. -/
def takeBytes : List Char → Nat → Option (List Char)
  | _, 0 => some []
  | [], _ + 1 => none
  | c :: cs, n + 1 =>
    if charUtf8Size c ≤ n + 1 then
      (takeBytes cs (n + 1 - charUtf8Size c)).map (fun l => c :: l)
    else none

/-- Byte-slice prefix of a string; models the Rust expression that takes
the slice of a str up to byte offset n (which panics, i.e. none, when n is
not a character boundary). -/
def sliceTo (s : String) (n : Nat) : Option String :=
  (takeBytes s.data n).map String.mk

/-- Removal of leading and trailing whitespace characters; models the
Rust str trim method. -/
def strTrim (s : String) : String :=
  String.mk (((s.data.dropWhile Char.isWhitespace).reverse.dropWhile
    Char.isWhitespace).reverse)

/-- Modelled from the spec: the ElementNode structure of the dom module
(not under the given source tree), one document element with tag name,
ordered attribute map, optional direct text content, visibility and
interactivity flags, optional assigned index and ordered owned children.
The optional bounding-box geometry of the spec is omitted because no
definition below reads it. -/
structure ElementNode where
  tag_name : String
  attributes : List (String × String)
  text_content : Option String
  is_visible : Bool
  is_interactive : Bool
  index : Option Nat
  children : List ElementNode

/-- Modelled from the spec: attribute lookup by name on the ordered
attribute map; an absent name yields no value, not an error. -/
def ElementNode.get_attribute (node : ElementNode) (name : String) : Option String :=
  node.attributes.lookup name

/-- Text content used on the full-snapshot path, from get_text_content in
src/tools/snapshot.rs: trim, then if the byte length exceeds 200 keep the
first 197 bytes and append a three-character ellipsis.  The byte slice at
offset 197 can panic, hence the Option result. -/
def snapshot_text_content : Option String → Option String
  | some text =>
    let trimmed := strTrim text
    if utf8Len trimmed > 200 then
      (sliceTo trimmed 197).map (fun s => s ++ "...")
    else some trimmed
  | none => some ""

/-- Wrapper matching the Rust signature of get_text_content in
src/tools/snapshot.rs, which reads the text_content field of the node. -/
def get_text_content (node : ElementNode) : Option String :=
  snapshot_text_content node.text_content

/-- Direct (non-descendant) text of an element, from
get_direct_text_content in src/tools/snapshot.rs: with no children it is
the ordinary text content; with children the raw text content is used
only when it is non-empty, shorter than 100 bytes and no child is
visible. -/
def get_direct_text_content (node : ElementNode) : Option String :=
  if node.children.isEmpty then get_text_content node
  else
    match node.text_content with
    | some text =>
      let trimmed := strTrim text
      if trimmed ≠ "" ∧ utf8Len trimmed < 100 ∧
          ¬ (node.children.any (fun c => c.is_visible)) then
        some trimmed
      else some ""
    | none => some ""

/-- Line formatting from append_with_index in src/tools/snapshot.rs: a
node carrying an assigned index gets the index in square brackets and a
space before the content, and every line ends with a newline. -/
def append_with_index (node : ElementNode) (content : String) : String :=
  match node.index with
  | some index => "[" ++ toString index ++ "] " ++ content ++ "\n"
  | none => content ++ "\n"

/-- Repetition of a string, modelling the Rust str repeat method. -/
def repeatString (s : String) (n : Nat) : String :=
  String.join (List.replicate n s)

mutual

/-- Snapshot rendering of one node, from generate_snapshot in
src/tools/snapshot.rs.  A node that is not visible at depth above zero is
skipped with its whole subtree (empty output); otherwise the node is
rendered by render_node.  The result is none exactly when some text
truncation along the way panics. -/
def generate_snapshot (node : ElementNode) (depth : Nat) : Option String :=
  if node.is_visible = false ∧ 0 < depth then some ""
  else render_node node depth
termination_by (sizeOf node, 1)
decreasing_by
  exact Prod.Lex.right _ (by omega)

/-- Per-tag rendering of a (non-pruned) node, the match of
generate_snapshot in src/tools/snapshot.rs after the visibility check. -/
def render_node (node : ElementNode) (depth : Nat) : Option String :=
  if node.tag_name = "h1" then do
    let text ← get_text_content node
    let rest ← snapshotChildren node.children (depth + 1)
    pure (append_with_index node ("# " ++ text) ++ rest)
  else if node.tag_name = "h2" then do
    let text ← get_text_content node
    let rest ← snapshotChildren node.children (depth + 1)
    pure (append_with_index node ("## " ++ text) ++ rest)
  else if node.tag_name = "h3" then do
    let text ← get_text_content node
    let rest ← snapshotChildren node.children (depth + 1)
    pure (append_with_index node ("### " ++ text) ++ rest)
  else if node.tag_name = "h4" then do
    let text ← get_text_content node
    let rest ← snapshotChildren node.children (depth + 1)
    pure (append_with_index node ("#### " ++ text) ++ rest)
  else if node.tag_name = "h5" then do
    let text ← get_text_content node
    let rest ← snapshotChildren node.children (depth + 1)
    pure (append_with_index node ("##### " ++ text) ++ rest)
  else if node.tag_name = "h6" then do
    let text ← get_text_content node
    let rest ← snapshotChildren node.children (depth + 1)
    pure (append_with_index node ("###### " ++ text) ++ rest)
  else if node.tag_name = "button" then do
    let text ← get_text_content node
    let rest ← snapshotChildren node.children (depth + 1)
    pure ((if text ≠ "" then append_with_index node text
           else append_with_index node "<button>") ++ rest)
  else if node.tag_name = "a" then do
    let text ← get_text_content node
    let href := (node.get_attribute "href").getD ""
    let rest ← snapshotChildren node.children (depth + 1)
    pure ((if text ≠ "" then
             if href ≠ "" then
               append_with_index node (text ++ " (" ++ href ++ ")")
             else append_with_index node text
           else append_with_index node ("<link " ++ href ++ ">")) ++ rest)
  else if node.tag_name = "input" then do
    let input_type := (node.get_attribute "type").getD "text"
    let placeholder :=
      match node.get_attribute "placeholder" with
      | some s => " placeholder=\"" ++ s ++ "\""
      | none => ""
    let rest ← snapshotChildren node.children (depth + 1)
    pure (append_with_index node
      ("<input type=\"" ++ input_type ++ "\"" ++ placeholder ++ ">,") ++ rest)
  else if node.tag_name = "textarea" then do
    let placeholder :=
      match node.get_attribute "placeholder" with
      | some s => " placeholder=\"" ++ s ++ "\""
      | none => ""
    let rest ← snapshotChildren node.children (depth + 1)
    pure (append_with_index node ("<textarea" ++ placeholder ++ ">") ++ rest)
  else if node.tag_name = "select" then do
    let rest ← snapshotChildren node.children (depth + 1)
    pure (append_with_index node "<select>" ++ rest)
  else if node.tag_name = "label" then do
    let text ← get_text_content node
    let rest ← snapshotChildren node.children (depth + 1)
    pure ((if text ≠ "" then append_with_index node text else "") ++ rest)
  else if node.tag_name = "p" ∨ node.tag_name = "div" ∨ node.tag_name = "span" ∨
      node.tag_name = "section" ∨ node.tag_name = "article" ∨
      node.tag_name = "main" ∨ node.tag_name = "header" ∨
      node.tag_name = "footer" ∨ node.tag_name = "nav" then do
    let text ← get_direct_text_content node
    let rest ← snapshotChildren node.children (depth + 1)
    pure ((if text ≠ "" then append_with_index node text else "") ++ rest)
  else if node.tag_name = "li" then do
    let text ← get_direct_text_content node
    let indent := repeatString "  " (depth - 1)
    let rest ← snapshotChildren node.children (depth + 1)
    pure ((if text ≠ "" then append_with_index node (indent ++ "• " ++ text)
           else append_with_index node (indent ++ "• ")) ++ rest)
  else if node.tag_name = "body" ∨ node.tag_name = "ul" ∨ node.tag_name = "ol" ∨
      node.tag_name = "form" ∨ node.tag_name = "fieldset" ∨
      node.tag_name = "table" ∨ node.tag_name = "tbody" ∨
      node.tag_name = "thead" ∨ node.tag_name = "tr" then
    snapshotChildren node.children (depth + 1)
  else if node.is_interactive then do
    let text ← get_text_content node
    pure (if text ≠ "" then append_with_index node text
          else append_with_index node ("<" ++ node.tag_name ++ ">"))
  else do
    let text ← get_direct_text_content node
    let rest ← snapshotChildren node.children (depth + 1)
    pure ((if text ≠ "" then text ++ "\n" else "") ++ rest)
termination_by (sizeOf node, 0)
decreasing_by
  all_goals exact Prod.Lex.left _ _ (by cases node; simp)

/-- Concatenation of the snapshots of a list of children, the child loop
of generate_snapshot in src/tools/snapshot.rs. -/
def snapshotChildren (children : List ElementNode) (depth : Nat) : Option String :=
  match children with
  | [] => some ""
  | c :: rest => do
    let child_output ← generate_snapshot c depth
    let others ← snapshotChildren rest depth
    pure (child_output ++ others)
termination_by (sizeOf children, 2)
decreasing_by
  all_goals exact Prod.Lex.left _ _ (by simp_arith)

end

/-- Inline text formatting of the clickable-elements listing, from the
body of execute_typed in src/tools/get_clickable_elements.rs: trim, then
if the byte length exceeds 100 keep the first 97 bytes and append the
three-character ellipsis.  The byte slice at offset 97 can panic, hence
the Option result. -/
def clickable_text_content : Option String → Option String
  | some text =>
    let trimmed := strTrim text
    if utf8Len trimmed > 100 then
      (sliceTo trimmed 97).map (fun s => s ++ "...")
    else some trimmed
  | none => some ""

/-- Shallow model of a serde_json value, restricted to the shapes built
by the embedded tools: strings, counts and objects with ordered fields. -/
inductive Value where
  | str (s : String)
  | num (n : Nat)
  | obj (fields : List (String × Value))

/-- Result of tool execution, from ToolResult in src/tools/mod.rs.  The
metadata map is modelled as an association list. -/
structure ToolResult where
  success : Bool
  data : Option Value
  error : Option String
  metadata : List (String × Value)

/-- Successful result with data, from ToolResult.success_with in
src/tools/mod.rs. -/
def ToolResult.success_with (data : Value) : ToolResult :=
  { success := true, data := some data, error := none, metadata := [] }

/-- Failure result, from ToolResult.failure in src/tools/mod.rs. -/
def ToolResult.failure (error : String) : ToolResult :=
  { success := false, data := none, error := some error, metadata := [] }

/-- Modelled from the spec: the error kinds of the error module (not
under the given source tree), as enumerated in section 7 and used by the
tools under the source tree. -/
inductive BrowserError where
  | InvalidArgument (msg : String)
  | ElementNotFound (msg : String)
  | ToolExecutionFailed (tool : String) (reason : String)
  | Other (msg : String)

/-- Modelled from the spec: one selector-map entry, a resolved locator
string sufficient to re-identify the element, exposed through the field
css_selector as read by src/tools/click.rs. -/
structure SelectorInfo where
  css_selector : String

/-- Modelled from the spec: the DomTree aggregate of the dom module (not
under the given source tree), a root element plus the selector map built
by the indexer, keyed by assigned index in insertion (traversal) order. -/
structure DomTree where
  root : ElementNode
  selector_map : List (Nat × SelectorInfo)

/-- Modelled from the spec: get_selector returns the locator stored for
an index and none when there is no entry, never a fabricated default. -/
def DomTree.get_selector (dom : DomTree) (index : Nat) : Option SelectorInfo :=
  dom.selector_map.lookup index

/-- Modelled from the spec: interactive_indices returns the sequence of
assigned indices in insertion (traversal) order. -/
def DomTree.interactive_indices (dom : DomTree) : List Nat :=
  dom.selector_map.map Prod.fst

mutual

/-- Modelled from the spec: find_node_by_index performs a top-down tree
search keyed on the stored index field of each node. -/
def findNodeByIndex (node : ElementNode) (target : Nat) : Option ElementNode :=
  if node.index = some target then some node
  else findNodeInList node.children target
termination_by (sizeOf node, 0)
decreasing_by
  exact Prod.Lex.left _ _ (by cases node; simp)

/-- Search for an indexed node among a list of subtrees, first hit
wins. -/
def findNodeInList (children : List ElementNode) (target : Nat) : Option ElementNode :=
  match children with
  | [] => none
  | c :: rest =>
    match findNodeByIndex c target with
    | some n => some n
    | none => findNodeInList rest target
termination_by (sizeOf children, 1)
decreasing_by
  all_goals exact Prod.Lex.left _ _ (by simp_arith)

end

/-- Wrapper matching the Rust call shape dom.find_node_by_index. -/
def DomTree.find_node_by_index (dom : DomTree) (index : Nat) : Option ElementNode :=
  findNodeByIndex dom.root index

/-- Formatting loop of execute_typed in
src/tools/get_clickable_elements.rs: for each index in order, when the
index resolves to a node, one line of the shape
open-bracket index close-bracket tag text closing tag (the text part and
the closing tag are omitted when the text is empty).  The result is none
exactly when a text truncation panics. -/
def formatLines (dom : DomTree) : List Nat → Option (List String)
  | [] => some []
  | index :: rest =>
    match dom.find_node_by_index index with
    | some node => do
      let text_content ← clickable_text_content node.text_content
      let formatted :=
        if text_content = "" then
          "[" ++ toString index ++ "]<" ++ node.tag_name ++ ">"
        else
          "[" ++ toString index ++ "]<" ++ node.tag_name ++ ">" ++
            text_content ++ "</" ++ node.tag_name ++ ">"
      let more ← formatLines dom rest
      pure (formatted :: more)
    | none => formatLines dom rest

/-- Core of execute_typed in src/tools/get_clickable_elements.rs, applied
to the extracted tree: empty index list yields the exact empty payload,
otherwise the formatted lines are joined with newlines and the count is
the number of indices. -/
def get_clickable_elements (dom : DomTree) : Option ToolResult :=
  let indices := dom.interactive_indices
  if indices.isEmpty then
    some (ToolResult.success_with
      (Value.obj [("elements", Value.str ""), ("count", Value.num 0)]))
  else do
    let formatted_elements ← formatLines dom indices
    let elements_string := String.intercalate "\n" formatted_elements
    let count := indices.length
    pure (ToolResult.success_with
      (Value.obj [("elements", Value.str elements_string),
                  ("count", Value.num count)]))

/-- Element handle returned by the session, with the outcome its click
call would produce; models the element interface consumed by
src/tools/click.rs. -/
structure Element where
  click_result : Except String Unit

/-- Black-box browser session as consumed by the tools: the outcome of a
DOM extraction and of element lookups.  Models the collaborator interface
of section 6, which the core only calls. -/
structure BrowserSession where
  extract_dom : Except BrowserError DomTree
  find_element : String → Except BrowserError Element

/-- Tool execution context, from ToolContext in src/tools/mod.rs: a
session together with an optional DOM tree extracted on demand. -/
structure ToolContext where
  session : BrowserSession
  dom_tree : Option DomTree

/-- Fresh context without a tree, from ToolContext::new. -/
def ToolContext.new (session : BrowserSession) : ToolContext :=
  { session := session, dom_tree := none }

/-- Context with a pre-extracted tree, from ToolContext::with_dom. -/
def ToolContext.with_dom (session : BrowserSession) (dom_tree : DomTree) : ToolContext :=
  { session := session, dom_tree := some dom_tree }

/-- Get or extract the DOM tree, from ToolContext::get_dom in
src/tools/mod.rs: when no tree is cached the session extraction runs and
its result is cached, otherwise the cached tree is returned.  The third
component counts how many underlying extractions this call performed. -/
def ToolContext.get_dom (ctx : ToolContext) :
    Except BrowserError (DomTree × ToolContext × Nat) :=
  match ctx.dom_tree with
  | some t => Except.ok (t, ctx, 0)
  | none =>
    match ctx.session.extract_dom with
    | Except.ok t => Except.ok (t, { ctx with dom_tree := some t }, 1)
    | Except.error e => Except.error e

/-- Session-level commands a tool can issue, recorded as a trace to make
side effects of an execution observable. -/
inductive SessionCmd where
  | find_element (selector : String)
  | click (selector : String)

/-- Index branch of ClickTool::execute in src/tools/click.rs: resolve the
index through the selector map of the extracted tree, failing with
ElementNotFound when there is no entry, then (only on success) look the
element up in the session and click it.  The second component is the
trace of find_element and click commands issued. -/
def click_execute_index (ctx : ToolContext) (index : Nat) :
    Except BrowserError (ToolResult × ToolContext) × List SessionCmd :=
  match ctx.get_dom with
  | Except.error e => (Except.error e, [])
  | Except.ok (dom, ctx1, _) =>
    match dom.get_selector index with
    | none =>
      (Except.error (BrowserError.ElementNotFound
        ("No element with index " ++ toString index)), [])
    | some selector_info =>
      let css_selector := selector_info.css_selector
      match ctx1.session.find_element css_selector with
      | Except.error e => (Except.error e, [SessionCmd.find_element css_selector])
      | Except.ok element =>
        match element.click_result with
        | Except.error e =>
          (Except.error (BrowserError.ToolExecutionFailed "click" e),
           [SessionCmd.find_element css_selector, SessionCmd.click css_selector])
        | Except.ok _ =>
          (Except.ok (ToolResult.success_with
            (Value.obj [("index", Value.num index),
                        ("selector", Value.str css_selector),
                        ("method", Value.str "index")]), ctx1),
           [SessionCmd.find_element css_selector, SessionCmd.click css_selector])

/-- Registered tool implementation as stored by the registry: its name
and its execute entry point, from the Tool trait in src/tools/mod.rs. -/
structure RegisteredTool where
  name : String
  execute : Value → ToolContext → Except BrowserError (ToolResult × ToolContext)

/-- Tool registry, from ToolRegistry in src/tools/mod.rs; the hash map
from name to implementation is modelled as an association list. -/
structure ToolRegistry where
  tools : List (String × RegisteredTool)

/-- Empty registry, from ToolRegistry::new. -/
def ToolRegistry.new : ToolRegistry := { tools := [] }

/-- Registration, from ToolRegistry::register: insertion keyed by the
tool name, replacing any tool previously stored under that name. -/
def ToolRegistry.register (r : ToolRegistry) (tool : RegisteredTool) : ToolRegistry :=
  { tools := (tool.name, tool) :: r.tools.filter (fun p => p.1 != tool.name) }

/-- Lookup by name, from ToolRegistry::get. -/
def ToolRegistry.get (r : ToolRegistry) (name : String) : Option RegisteredTool :=
  r.tools.lookup name

/-- Dispatch by name, from ToolRegistry::execute in src/tools/mod.rs: a
registered tool runs, a missing name yields a non-raised failure result
naming the tool. -/
def ToolRegistry.execute (r : ToolRegistry) (name : String) (params : Value)
    (ctx : ToolContext) : Except BrowserError (ToolResult × ToolContext) :=
  match r.get name with
  | some tool => tool.execute params ctx
  | none =>
    Except.ok (ToolResult.failure ("Tool \x27" ++ name ++ "\x27 not found"), ctx)

/- Concrete elements used as witnesses below. -/

def welcomeHeading : ElementNode := ⟨"h1", [], some "Welcome", true, false, none, []⟩
def welcomeButton : ElementNode := ⟨"button", [], some "Click me", true, true, some 0, []⟩
def welcomeBody : ElementNode :=
  ⟨"body", [], none, true, false, none, [welcomeHeading, welcomeButton]⟩
def exampleLink : ElementNode :=
  ⟨"a", [("href", "https://example.com")], some "Example Link", true, true, some 5, []⟩
def emptyDomTree : DomTree := ⟨⟨"body", [], none, true, false, none, []⟩, []⟩
def dummySession : BrowserSession :=
  ⟨Except.error (BrowserError.Other "no session"),
   fun _ => Except.error (BrowserError.Other "no session")⟩
def okSession : BrowserSession :=
  ⟨Except.ok emptyDomTree, fun _ => Except.error (BrowserError.Other "no session")⟩

/-- Fifty euro-sign characters: 150 UTF-8 bytes. -/
def euroText50 : String := String.mk (List.replicate 50 '€')

/-- One hundred euro-sign characters: 300 UTF-8 bytes. -/
def euroText100 : String := String.mk (List.replicate 100 '€')

/-- Interactive button whose text consists of fifty euro-sign
characters. -/
def multibyteButton : ElementNode :=
  ⟨"button", [], some euroText50, true, true, some 0, []⟩

/-- Tree whose only interactive element carries the multi-byte text. -/
def multibyteDom : DomTree :=
  ⟨⟨"body", [], none, true, false, none, [multibyteButton]⟩, [(0, ⟨"button"⟩)]⟩

/- Auxiliary lemmas about byte length and byte slicing of single-byte text. -/

theorem utf8LenList_all_one (l : List Char) (h : ∀ c ∈ l, charUtf8Size c = 1) :
    utf8LenList l = l.length := by
  induction l with
  | nil => simp [utf8LenList]
  | cons c cs ih =>
    have hc := h c (List.mem_cons_self c cs)
    have ih2 := ih (fun x hx => h x (List.mem_cons_of_mem c hx))
    simp [utf8LenList, hc, ih2]
    omega

theorem takeBytes_all_one (l : List Char) (n : Nat) (h : ∀ c ∈ l, charUtf8Size c = 1)
    (hn : n ≤ l.length) : takeBytes l n = some (l.take n) := by
  induction l generalizing n with
  | nil =>
    have : n = 0 := by simpa using hn
    subst this
    simp [takeBytes]
  | cons c cs ih =>
    cases n with
    | zero => simp [takeBytes]
    | succ m =>
      have hc := h c (List.mem_cons_self c cs)
      have hm : m ≤ cs.length := by simpa using hn
      have ih2 := ih m (fun x hx => h x (List.mem_cons_of_mem c hx)) hm
      simp [takeBytes, hc, ih2]

/-- C1: a node with is_visible false reached at depth above zero produces no
output and prunes its whole subtree, while at depth zero the visibility
guard never fires: the root is rendered by render_node regardless of its
own visibility flag. -/
theorem claim1_visibility_pruning (node : ElementNode) (depth : Nat)
    (h : node.is_visible = false) :
    (0 < depth → generate_snapshot node depth = some "") ∧
    generate_snapshot node 0 = render_node node 0 := by
  constructor
  · intro hd
    unfold generate_snapshot
    simp [h, hd]
  · unfold generate_snapshot
    simp

/-- Witness for claim1 at a concrete invisible div node. -/
theorem claim1_visibility_pruning_witness :
    generate_snapshot ⟨"div", [], some "hidden", false, false, none, []⟩ 1 = some "" ∧
    generate_snapshot ⟨"div", [], some "hidden", false, false, none, []⟩ 0 =
      render_node ⟨"div", [], some "hidden", false, false, none, []⟩ 0 := by
  have h1 := claim1_visibility_pruning ⟨"div", [], some "hidden", false, false, none, []⟩ 1 rfl
  have h0 := claim1_visibility_pruning ⟨"div", [], some "hidden", false, false, none, []⟩ 0 rfl
  exact ⟨h1.1 (by omega), h0.2⟩

/-- C3: a visible block or text container renders its own direct text when
non-empty and then always recurses into all children at depth plus one. -/
theorem claim3_container_direct_text_then_children
    (node : ElementNode) (depth : Nat) (text rest : String)
    (hv : node.is_visible = true)
    (ht : node.tag_name = "p" ∨ node.tag_name = "div" ∨ node.tag_name = "span" ∨
      node.tag_name = "section" ∨ node.tag_name = "article" ∨ node.tag_name = "main" ∨
      node.tag_name = "header" ∨ node.tag_name = "footer" ∨ node.tag_name = "nav")
    (htext : get_direct_text_content node = some text)
    (hrest : snapshotChildren node.children (depth + 1) = some rest) :
    generate_snapshot node depth =
      some ((if text ≠ "" then append_with_index node text else "") ++ rest) := by
  unfold generate_snapshot
  rcases ht with h|h|h|h|h|h|h|h|h <;>
    simp [render_node, hv, h, htext, hrest]

/-- Witness for claim3: a p node with direct text and an invisible child
renders the text and the pruned child subtree. -/
theorem claim3_container_witness :
    generate_snapshot ⟨"p", [], some "Hello", true, false, none,
      [⟨"span", [], some "inner", false, false, none, []⟩]⟩ 2 = some "Hello\n" := by
  have hrest : snapshotChildren
      [⟨"span", [], some "inner", false, false, none, []⟩] 3 = some "" := by
    simp [snapshotChildren, generate_snapshot]
  have htext : get_direct_text_content ⟨"p", [], some "Hello", true, false, none,
      [⟨"span", [], some "inner", false, false, none, []⟩]⟩ = some "Hello" := by decide
  have h := claim3_container_direct_text_then_children
    ⟨"p", [], some "Hello", true, false, none,
      [⟨"span", [], some "inner", false, false, none, []⟩]⟩ 2 "Hello" ""
    rfl (Or.inl rfl) htext hrest
  rw [h]
  decide

/-- C4: a visible link node follows exactly three branches on its text and
href attribute. -/
theorem claim4_link_branches (node : ElementNode) (depth : Nat) (text rest : String)
    (hv : node.is_visible = true) (ht : node.tag_name = "a")
    (htext : get_text_content node = some text)
    (hrest : snapshotChildren node.children (depth + 1) = some rest) :
    generate_snapshot node depth =
      some ((if text ≠ "" then
               if (node.get_attribute "href").getD "" ≠ "" then
                 append_with_index node
                   (text ++ " (" ++ (node.get_attribute "href").getD "" ++ ")")
               else append_with_index node text
             else append_with_index node
               ("<link " ++ (node.get_attribute "href").getD "" ++ ">")) ++ rest) := by
  unfold generate_snapshot
  simp [render_node, hv, ht, htext, hrest]

/-- Witness for claim4: the indexed example link yields its exact line. -/
theorem claim4_link_branches_witness :
    generate_snapshot exampleLink 1 = some "[5] Example Link (https://example.com)\n" := by
  have htext : get_text_content exampleLink = some "Example Link" := by decide
  have hrest : snapshotChildren exampleLink.children 2 = some "" := by
    simp [exampleLink, snapshotChildren]
  have h := claim4_link_branches exampleLink 1 "Example Link" "" rfl rfl htext hrest
  rw [h]
  decide

/-- C5: every rendered line of an indexed node is prefixed by its index in
square brackets and a space, unindexed lines are unprefixed, and the
welcome page scenario produces both expected lines. -/
theorem claim5_index_prefixing :
    (∀ (node : ElementNode) (content : String) (i : Nat), node.index = some i →
      append_with_index node content = "[" ++ toString i ++ "] " ++ content ++ "\n") ∧
    (∀ (node : ElementNode) (content : String), node.index = none →
      append_with_index node content = content ++ "\n") ∧
    generate_snapshot welcomeBody 0 = some "# Welcome\n[0] Click me\n" ∧
    (∃ a b, "# Welcome\n[0] Click me\n" = a ++ "# Welcome\n" ++ b) ∧
    (∃ a b, "# Welcome\n[0] Click me\n" = a ++ "[0] Click me\n" ++ b) := by
  refine ⟨?_, ?_, ?_, ⟨"", "[0] Click me\n", by decide⟩, ⟨"# Welcome\n", "", by decide⟩⟩
  · intro node content i h
    simp [append_with_index, h]
  · intro node content h
    simp [append_with_index, h]
  · have h1 : get_text_content ⟨"h1", [], some "Welcome", true, false, none, []⟩ =
        some "Welcome" := by decide
    have h2 : get_text_content ⟨"button", [], some "Click me", true, true, some 0, []⟩ =
        some "Click me" := by decide
    simp [generate_snapshot, render_node, snapshotChildren, welcomeBody, welcomeHeading,
      welcomeButton, h1, h2, append_with_index]
    decide

/-- Witness for claim5, applying the indexed and unindexed prefix rules at
concrete nodes. -/
theorem claim5_index_prefixing_witness :
    append_with_index welcomeButton "Click me" = "[0] Click me\n" ∧
    append_with_index welcomeHeading "# Welcome" = "# Welcome\n" := by
  constructor
  · have h := claim5_index_prefixing.1 welcomeButton "Click me" 0 rfl
    rw [h]
    decide
  · exact claim5_index_prefixing.2.1 welcomeHeading "# Welcome" rfl

/-- C2 (amended to single-byte text, as the counterexample forces): for
trimmed text of single-byte characters, the clickable-elements path
truncates beyond 100 bytes to 97 characters plus the ellipsis giving
exactly 100 characters, the snapshot path truncates beyond 200 bytes to
197 characters plus the ellipsis, and 150-character text is untruncated
on the snapshot path. -/
theorem claim2_truncation_thresholds (text : String)
    (hA : ∀ c ∈ (strTrim text).data, charUtf8Size c = 1) :
    ((strTrim text).data.length > 100 →
      clickable_text_content (some text) =
        some (String.mk ((strTrim text).data.take 97) ++ "...") ∧
      (String.mk ((strTrim text).data.take 97) ++ "...").data.length = 100) ∧
    ((strTrim text).data.length > 200 →
      snapshot_text_content (some text) =
        some (String.mk ((strTrim text).data.take 197) ++ "...")) ∧
    ((strTrim text).data.length = 150 →
      snapshot_text_content (some text) = some (strTrim text)) := by
  have hlen : utf8Len (strTrim text) = (strTrim text).data.length :=
    utf8LenList_all_one _ hA
  refine ⟨?_, ?_, ?_⟩
  · intro hgt
    constructor
    · simp only [clickable_text_content]
      rw [if_pos (by omega)]
      unfold sliceTo
      rw [takeBytes_all_one _ _ hA (by omega)]
      simp
    · have h97 : ((strTrim text).data.take 97).length = 97 := by
        rw [List.length_take]
        omega
      have hd : (String.mk ((strTrim text).data.take 97) ++ "...").data =
          (strTrim text).data.take 97 ++ ['.', '.', '.'] := rfl
      rw [hd, List.length_append, h97]
      decide
  · intro hgt
    simp only [snapshot_text_content]
    rw [if_pos (by omega)]
    unfold sliceTo
    rw [takeBytes_all_one _ _ hA (by omega)]
    simp
  · intro heq
    simp only [snapshot_text_content]
    rw [if_neg (by omega)]

set_option maxRecDepth 40000 in
/-- Witness for claim2 at a 150-character single-byte text: truncated to
exactly 100 characters on the clickable path, untruncated on the
snapshot path. -/
theorem claim2_truncation_thresholds_witness :
    clickable_text_content (some (String.mk (List.replicate 150 'a'))) =
      some (String.mk (List.replicate 97 'a') ++ "...") ∧
    snapshot_text_content (some (String.mk (List.replicate 150 'a'))) =
      some (String.mk (List.replicate 150 'a')) ∧
    (String.mk (List.replicate 97 'a') ++ "...").data.length = 100 := by
  have h := claim2_truncation_thresholds (String.mk (List.replicate 150 'a')) (by decide)
  have hlen : (strTrim (String.mk (List.replicate 150 'a'))).data.length = 150 := by decide
  have h1 := (h.1 (by omega)).1
  have h2 := h.2.2 hlen
  have e1 : (strTrim (String.mk (List.replicate 150 'a'))).data.take 97 =
      List.replicate 97 'a' := by decide
  have e2 : strTrim (String.mk (List.replicate 150 'a')) =
      String.mk (List.replicate 150 'a') := by decide
  refine ⟨?_, ?_, (h.1 (by omega)).2.trans rfl⟩
  · rw [h1, e1]
  · rw [h2, e2]

set_option maxRecDepth 40000 in
/-- Counterexample to C2 as stated: a 150-character text of two-byte
characters is longer than 100 characters, yet the clickable-elements path
does not render 97 characters plus an ellipsis: the byte slice at offset
97 falls inside a character and the formatting panics (models as none). -/
theorem claim2_truncation_counterexample :
    (strTrim (String.mk (List.replicate 150 'é'))).data.length = 150 ∧
    clickable_text_content (some (String.mk (List.replicate 150 'é'))) = none := by
  constructor
  · decide
  · decide

set_option maxRecDepth 40000 in
/-- Multi-byte clickable-path truncation panics on fifty euro signs. -/
theorem clickable_euroText50_none : clickable_text_content (some euroText50) = none := by
  decide

set_option maxRecDepth 40000 in
/-- Multi-byte snapshot-path truncation panics on one hundred euro signs. -/
theorem snapshot_euroText100_none : snapshot_text_content (some euroText100) = none := by
  decide

set_option maxRecDepth 40000 in
/-- C10: both truncation paths slice at a fixed byte offset; on multi-byte
text whose byte length exceeds the threshold while the offset is not a
character boundary, the slice panics.  Fifty euro-sign characters (150
bytes) break the clickable path and one hundred (300 bytes) break the
snapshot path. -/
theorem claim10_byte_slice_panics :
    utf8Len euroText50 = 150 ∧ clickable_text_content (some euroText50) = none ∧
    utf8Len euroText100 = 300 ∧ snapshot_text_content (some euroText100) = none := by
  refine ⟨by decide, clickable_euroText50_none, by decide, snapshot_euroText100_none⟩

/-- C6: dispatching an unregistered name returns a non-raised failure
result whose message names the missing tool; it never raises. -/
theorem claim6_missing_tool_is_failure_result (r : ToolRegistry) (name : String)
    (params : Value) (ctx : ToolContext) (h : r.get name = none) :
    r.execute name params ctx =
      Except.ok (ToolResult.failure ("Tool \x27" ++ name ++ "\x27 not found"), ctx) ∧
    (ToolResult.failure ("Tool \x27" ++ name ++ "\x27 not found")).success = false ∧
    (ToolResult.failure ("Tool \x27" ++ name ++ "\x27 not found")).error =
      some ("Tool \x27" ++ name ++ "\x27 not found") ∧
    ∃ pre post, "Tool \x27" ++ name ++ "\x27 not found" = pre ++ name ++ post := by
  refine ⟨?_, rfl, rfl, "Tool \x27", "\x27 not found", rfl⟩
  simp [ToolRegistry.execute, h]

/-- Witness for claim6 at the empty registry and the name does-not-exist. -/
theorem claim6_missing_tool_witness :
    ToolRegistry.new.execute "does-not-exist" (Value.str "")
        (ToolContext.new dummySession) =
      Except.ok (ToolResult.failure "Tool \x27does-not-exist\x27 not found",
        ToolContext.new dummySession) := by
  have h := claim6_missing_tool_is_failure_result ToolRegistry.new "does-not-exist"
    (Value.str "") (ToolContext.new dummySession) rfl
  rw [h.1]
  rfl

/-- C7: the first get_dom call on a fresh context performs exactly one
extraction and caches the tree, a context holding a cached tree returns it
with zero extractions, and a context built by with_dom returns the
supplied tree with zero extractions. -/
theorem claim7_dom_extraction_cached (session : BrowserSession) (t : DomTree)
    (h : session.extract_dom = Except.ok t) :
    (ToolContext.new session).get_dom =
      Except.ok (t, { session := session, dom_tree := some t }, 1) ∧
    ToolContext.get_dom { session := session, dom_tree := some t } =
      Except.ok (t, { session := session, dom_tree := some t }, 0) ∧
    (ToolContext.with_dom session t).get_dom =
      Except.ok (t, ToolContext.with_dom session t, 0) := by
  refine ⟨?_, ?_, ?_⟩ <;>
    simp [ToolContext.get_dom, ToolContext.new, ToolContext.with_dom, h]

/-- Witness for claim7 with a session whose extraction yields the empty
tree. -/
theorem claim7_dom_extraction_cached_witness :
    (ToolContext.new okSession).get_dom =
      Except.ok (emptyDomTree, { session := okSession, dom_tree := some emptyDomTree }, 1) ∧
    (ToolContext.with_dom okSession emptyDomTree).get_dom =
      Except.ok (emptyDomTree, ToolContext.with_dom okSession emptyDomTree, 0) := by
  have h := claim7_dom_extraction_cached okSession emptyDomTree rfl
  exact ⟨h.1, h.2.2⟩

/-- C8: a click by an index with no selector-map entry fails with
ElementNotFound naming the index, and the trace of session commands is
empty: no find_element and no click is issued and no locator is
fabricated. -/
theorem claim8_unresolvable_index_fails_early
    (ctx : ToolContext) (index : Nat) (dom : DomTree) (ctx1 : ToolContext) (n : Nat)
    (hdom : ctx.get_dom = Except.ok (dom, ctx1, n))
    (h : dom.get_selector index = none) :
    click_execute_index ctx index =
      (Except.error (BrowserError.ElementNotFound
        ("No element with index " ++ toString index)), []) ∧
    ∃ pre, "No element with index " ++ toString index = pre ++ toString index := by
  refine ⟨?_, "No element with index ", rfl⟩
  simp [click_execute_index, hdom, h]

/-- Witness for claim8 at index 3 of a tree with an empty selector map. -/
theorem claim8_unresolvable_index_witness :
    click_execute_index (ToolContext.with_dom dummySession emptyDomTree) 3 =
      (Except.error (BrowserError.ElementNotFound "No element with index 3"), []) := by
  have h := claim8_unresolvable_index_fails_early
    (ToolContext.with_dom dummySession emptyDomTree) 3 emptyDomTree
    (ToolContext.with_dom dummySession emptyDomTree) 0 rfl rfl
  rw [h.1]
  rfl

/-- C9 (amended: whenever formatting of the resolving nodes does not
panic, as the counterexample forces): get_clickable_elements returns a
success result whose count is the number of interactive indices and whose
elements string joins the formatted line of every resolving index in
order; with no interactive indices the payload is exactly the empty
elements string and count zero. -/
theorem claim9_clickable_elements_result (dom : DomTree) (lines : List String)
    (h : formatLines dom dom.interactive_indices = some lines) :
    get_clickable_elements dom =
      some (ToolResult.success_with (Value.obj
        [("elements", Value.str (String.intercalate "\n" lines)),
         ("count", Value.num dom.interactive_indices.length)])) ∧
    (ToolResult.success_with (Value.obj
        [("elements", Value.str (String.intercalate "\n" lines)),
         ("count", Value.num dom.interactive_indices.length)])).success = true := by
  refine ⟨?_, rfl⟩
  by_cases he : dom.interactive_indices.isEmpty
  · have hnil : dom.interactive_indices = [] := by simpa using he
    rw [hnil] at h
    simp only [formatLines] at h
    injection h with h2
    subst h2
    simp [get_clickable_elements, he, hnil, String.intercalate]
  · simp only [get_clickable_elements]
    rw [if_neg he]
    rw [h]
    simp

/-- Witness for claim9 at a tree with no interactive elements: the result
is exactly the empty elements string with count zero. -/
theorem claim9_clickable_elements_witness :
    get_clickable_elements emptyDomTree =
      some (ToolResult.success_with (Value.obj
        [("elements", Value.str ""), ("count", Value.num 0)])) := by
  have h := claim9_clickable_elements_result emptyDomTree [] rfl
  have := h.1
  rw [this]
  rfl

set_option maxRecDepth 40000 in
/-- Counterexample to C9 as stated: on a tree with one interactive element
whose text is fifty euro-sign characters the clickable-elements listing
does not return any result at all: the text formatting panics (modelled
as none), so no success result with count one is produced. -/
theorem claim9_clickable_elements_counterexample :
    multibyteDom.interactive_indices = [0] ∧
    get_clickable_elements multibyteDom = none := by
  have hfind : multibyteDom.find_node_by_index 0 = some multibyteButton := by
    simp [DomTree.find_node_by_index, multibyteDom, findNodeByIndex, findNodeInList,
      multibyteButton]
  have hm : multibyteButton.text_content = some euroText50 := rfl
  have hfmt : formatLines multibyteDom [0] = none := by
    rw [formatLines, hfind]
    simp only [hm, clickable_euroText50_none]
    rfl
  constructor
  · rfl
  · simp only [get_clickable_elements, show multibyteDom.interactive_indices = [0] from rfl]
    rw [if_neg (by decide)]
    rw [hfmt]
    rfl
